import Mathlib

/-!
Verification of the freemium usage-gating and tier-promotion state machine
of the firefighter exam-prep application.  The definitions below are a
shallow embedding of the zustand user store: the `UserState` record mirrors
the persisted state, each store action becomes a pure state-transforming
function, and each selector hook becomes a pure function of the state and
the current date.  The implicit wall-clock read (`getTodayString`) is made
an explicit `today : String` parameter on every function that consults it.
-/

/-- Tier of the user, mirroring the string union `'lead' | 'free' | 'premium'`. -/
inductive UserTier
  | lead
  | free
  | premium
deriving DecidableEq, Repr

/-- The persisted user record, mirroring the fields of the store state.
JavaScript numbers are modelled as integers; nullable strings as `Option String`. -/
structure UserState where
  isAuthenticated : Bool
  email : Option String
  userId : Option String
  tier : UserTier
  quizCount : Int
  flashcardCount : Int
  lastResetDate : Option String
deriving DecidableEq, Repr

/-- TIER_LIMITS.lead.totalQuestions from the source. -/
def TIER_LIMITS_lead_totalQuestions : Int := 10

/-- TIER_LIMITS.lead.totalFlashcards from the source. -/
def TIER_LIMITS_lead_totalFlashcards : Int := 10

/-- TIER_LIMITS.free.questionsPerDay from the source. -/
def TIER_LIMITS_free_questionsPerDay : Int := 10

/-- TIER_LIMITS.free.flashcardsPerDay from the source. -/
def TIER_LIMITS_free_flashcardsPerDay : Int := 10

/-- Initial store state: start as a lead with no identity and zero counts. -/
def initialState : UserState :=
  { isAuthenticated := false
    email := none
    userId := none
    tier := .lead
    quizCount := 0
    flashcardCount := 0
    lastResetDate := none }

/-- captureLeadEmail: `set({ email, tier: 'lead' })`. -/
def captureLeadEmail (s : UserState) (email : String) : UserState :=
  { s with email := some email, tier := .lead }

/-- login: stores the email, promotes to free unless already premium, and
resets both daily counters; the token only goes to the external localStorage. -/
def login (s : UserState) (email : String) (_token : String) (today : String) : UserState :=
  { s with
    isAuthenticated := true
    email := some email
    tier := if s.tier = .premium then .premium else .free
    quizCount := 0
    flashcardCount := 0
    lastResetDate := some today }

/-- signup: stores email and userId, sets tier to free, resets both counters. -/
def signup (s : UserState) (email userId _token today : String) : UserState :=
  { s with
    isAuthenticated := true
    email := some email
    userId := some userId
    tier := .free
    quizCount := 0
    flashcardCount := 0
    lastResetDate := some today }

/-- logout: clears identity and counts and forces the tier back to lead. -/
def logout (_s : UserState) : UserState :=
  { isAuthenticated := false
    email := none
    userId := none
    tier := .lead
    quizCount := 0
    flashcardCount := 0
    lastResetDate := none }

/-- upgradeToPremium: `set({ tier: 'premium' })`, nothing else changes. -/
def upgradeToPremium (s : UserState) : UserState :=
  { s with tier := .premium }

/-- incrementQuizCount: for the free tier on a new day, reset both daily
counters (acted-upon counter to 1, the other to 0) and stamp the date;
otherwise increment the quiz counter only. -/
def incrementQuizCount (s : UserState) (today : String) : UserState :=
  if s.tier = .free ∧ s.lastResetDate ≠ some today then
    { s with quizCount := 1, flashcardCount := 0, lastResetDate := some today }
  else
    { s with quizCount := s.quizCount + 1 }

/-- incrementFlashcardCount: symmetric to incrementQuizCount. -/
def incrementFlashcardCount (s : UserState) (today : String) : UserState :=
  if s.tier = .free ∧ s.lastResetDate ≠ some today then
    { s with quizCount := 0, flashcardCount := 1, lastResetDate := some today }
  else
    { s with flashcardCount := s.flashcardCount + 1 }

/-- resetDailyLimits: zero both counters and stamp the date, with no tier check. -/
def resetDailyLimits (s : UserState) (today : String) : UserState :=
  { s with quizCount := 0, flashcardCount := 0, lastResetDate := some today }

/-- useCanStartQuiz selector: premium always allowed; lead limited by
lifetime count; free limited by daily count unless the stored date is stale. -/
def useCanStartQuiz (s : UserState) (today : String) : Bool :=
  if s.tier = .premium then true
  else if s.tier = .lead then decide (s.quizCount < TIER_LIMITS_lead_totalQuestions)
  else if s.lastResetDate ≠ some today then true
  else decide (s.quizCount < TIER_LIMITS_free_questionsPerDay)

/-- useCanStartFlashcards selector: symmetric to useCanStartQuiz. -/
def useCanStartFlashcards (s : UserState) (today : String) : Bool :=
  if s.tier = .premium then true
  else if s.tier = .lead then decide (s.flashcardCount < TIER_LIMITS_lead_totalFlashcards)
  else if s.lastResetDate ≠ some today then true
  else decide (s.flashcardCount < TIER_LIMITS_free_flashcardsPerDay)

/-- Result of the remaining-count selectors: the source returns `Infinity`
for premium, modelled as a tagged unlimited value. -/
inductive Remaining
  | unlimited
  | fin (n : Int)
deriving DecidableEq, Repr

/-- useRemainingQuizzes selector. -/
def useRemainingQuizzes (s : UserState) (today : String) : Remaining :=
  if s.tier = .premium then .unlimited
  else if s.tier = .lead then
    .fin (max 0 (TIER_LIMITS_lead_totalQuestions - s.quizCount))
  else if s.lastResetDate ≠ some today then .fin TIER_LIMITS_free_questionsPerDay
  else .fin (max 0 (TIER_LIMITS_free_questionsPerDay - s.quizCount))

/-- useRemainingFlashcards selector. -/
def useRemainingFlashcards (s : UserState) (today : String) : Remaining :=
  if s.tier = .premium then .unlimited
  else if s.tier = .lead then
    .fin (max 0 (TIER_LIMITS_lead_totalFlashcards - s.flashcardCount))
  else if s.lastResetDate ≠ some today then .fin TIER_LIMITS_free_flashcardsPerDay
  else .fin (max 0 (TIER_LIMITS_free_flashcardsPerDay - s.flashcardCount))

/-- useNeedsSignup selector: a lead at either lifetime limit must sign up. -/
def useNeedsSignup (s : UserState) : Bool :=
  if s.tier ≠ .lead then false
  else decide (TIER_LIMITS_lead_totalQuestions ≤ s.quizCount ∨
    TIER_LIMITS_lead_totalFlashcards ≤ s.flashcardCount)

/-- useNeedsSubscription selector: a free user at either daily limit today
must subscribe; a stale date means the limits have effectively reset. -/
def useNeedsSubscription (s : UserState) (today : String) : Bool :=
  if s.tier ≠ .free then false
  else if s.lastResetDate ≠ some today then false
  else decide (TIER_LIMITS_free_questionsPerDay ≤ s.quizCount ∨
    TIER_LIMITS_free_flashcardsPerDay ≤ s.flashcardCount)

/-- One store action, with every date the source would read from the clock
made explicit. -/
inductive StoreAction
  | captureLeadEmail (email : String)
  | login (email token today : String)
  | signup (email userId token today : String)
  | logout
  | upgradeToPremium
  | incrementQuizCount (today : String)
  | incrementFlashcardCount (today : String)
  | resetDailyLimits (today : String)

/-- Apply one action to the state. -/
def step (s : UserState) : StoreAction → UserState
  | .captureLeadEmail e => captureLeadEmail s e
  | .login e t d => login s e t d
  | .signup e u t d => signup s e u t d
  | .logout => logout s
  | .upgradeToPremium => upgradeToPremium s
  | .incrementQuizCount d => incrementQuizCount s d
  | .incrementFlashcardCount d => incrementFlashcardCount s d
  | .resetDailyLimits d => resetDailyLimits s d

/-- States reachable from the initial record through store actions. -/
inductive Reachable : UserState → Prop
  | init : Reachable initialState
  | step {s : UserState} (a : StoreAction) : Reachable s → Reachable (step s a)

/-- Claim C1: for a Free record whose lastResetDate differs from today,
recordFlashcardUse(today) sets quizCount to 0, flashcardCount to 1 and
lastResetDate to today, and symmetrically recordQuizUse(today) sets
flashcardCount to 0, quizCount to 1 and lastResetDate to today; when
lastResetDate equals today, only the acted-upon counter is incremented. -/
theorem free_daily_rollover (s : UserState) (today : String)
    (hfree : s.tier = .free) :
    (s.lastResetDate ≠ some today →
      (incrementFlashcardCount s today).quizCount = 0 ∧
      (incrementFlashcardCount s today).flashcardCount = 1 ∧
      (incrementFlashcardCount s today).lastResetDate = some today ∧
      (incrementQuizCount s today).flashcardCount = 0 ∧
      (incrementQuizCount s today).quizCount = 1 ∧
      (incrementQuizCount s today).lastResetDate = some today) ∧
    (s.lastResetDate = some today →
      (incrementFlashcardCount s today).flashcardCount = s.flashcardCount + 1 ∧
      (incrementFlashcardCount s today).quizCount = s.quizCount ∧
      (incrementQuizCount s today).quizCount = s.quizCount + 1 ∧
      (incrementQuizCount s today).flashcardCount = s.flashcardCount) := by
  constructor
  · intro h
    simp [incrementFlashcardCount, incrementQuizCount, hfree, h]
  · intro h
    simp [incrementFlashcardCount, incrementQuizCount, h]

/-- Witness record from the spec example: a Free record with quizCount 10,
flashcardCount 3 and lastResetDate 2024-01-01. -/
def c1Example : UserState :=
  { isAuthenticated := true
    email := some "user@example.com"
    userId := some "u1"
    tier := .free
    quizCount := 10
    flashcardCount := 3
    lastResetDate := some "2024-01-01" }

/-- Witness for C1 at the spec example input. -/
theorem free_daily_rollover_witness :
    (incrementFlashcardCount c1Example "2024-01-02").quizCount = 0 ∧
    (incrementFlashcardCount c1Example "2024-01-02").flashcardCount = 1 ∧
    (incrementFlashcardCount c1Example "2024-01-02").lastResetDate = some "2024-01-02" ∧
    useCanStartQuiz (incrementFlashcardCount c1Example "2024-01-02") "2024-01-02" = true := by
  have h := (free_daily_rollover c1Example "2024-01-02" rfl).1 (by decide)
  exact ⟨h.1, h.2.1, h.2.2.1, by decide⟩

/-- Claim C9: captureLeadEmail stores the email and unconditionally forces
the tier to lead (downgrading Free or Premium records), leaving the counters,
authentication flag, userId and lastResetDate unchanged. -/
theorem captureLeadEmail_forces_lead (s : UserState) (email : String) :
    (captureLeadEmail s email).tier = .lead ∧
    (captureLeadEmail s email).email = some email ∧
    (captureLeadEmail s email).quizCount = s.quizCount ∧
    (captureLeadEmail s email).flashcardCount = s.flashcardCount ∧
    (captureLeadEmail s email).isAuthenticated = s.isAuthenticated ∧
    (captureLeadEmail s email).userId = s.userId ∧
    (captureLeadEmail s email).lastResetDate = s.lastResetDate := by
  simp [captureLeadEmail]

/-- Claim C3: login keeps a Premium tier and otherwise sets the tier to
Free, and always zeroes both counters, stamps lastResetDate with the
current date, and stores the email. -/
theorem login_resets_and_never_downgrades_premium
    (s : UserState) (email token today : String) :
    (login s email token today).tier
      = (if s.tier = .premium then UserTier.premium else UserTier.free) ∧
    (login s email token today).quizCount = 0 ∧
    (login s email token today).flashcardCount = 0 ∧
    (login s email token today).lastResetDate = some today ∧
    (login s email token today).email = some email := by
  simp [login]

/-- Helper: on a lead record the quiz increment is the plain successor update. -/
theorem incrementQuizCount_lead (s : UserState) (d : String) (h : s.tier = .lead) :
    incrementQuizCount s d = { s with quizCount := s.quizCount + 1 } := by
  simp [incrementQuizCount, h]

/-- Helper: on a lead record the flashcard increment is the plain successor update. -/
theorem incrementFlashcardCount_lead (s : UserState) (d : String) (h : s.tier = .lead) :
    incrementFlashcardCount s d = { s with flashcardCount := s.flashcardCount + 1 } := by
  simp [incrementFlashcardCount, h]

/-- Helper: folding quiz increments over a lead record keeps the tier lead
and adds the number of increments to the quiz counter. -/
theorem lead_foldl_incrementQuizCount (ds : List String) :
    ∀ s : UserState, s.tier = .lead →
      (ds.foldl incrementQuizCount s).tier = .lead ∧
      (ds.foldl incrementQuizCount s).quizCount = s.quizCount + ds.length := by
  induction ds with
  | nil =>
    intro s h
    simpa using h
  | cons d ds ih =>
    intro s h
    rw [List.foldl_cons, incrementQuizCount_lead s d h]
    have h2 := ih { s with quizCount := s.quizCount + 1 } h
    refine ⟨h2.1, ?_⟩
    rw [h2.2]
    simp
    ring

/-- Claim C2: for a lead record both increments are unconditional (no date
check); from a fresh lead record, ten quiz uses on ten pairwise distinct
dates give quizCount 10 and canStartQuiz false on an eleventh date. -/
theorem lead_lifetime_accumulation (s : UserState) (ds : List String) (d11 : String)
    (hlead : s.tier = .lead) (h0 : s.quizCount = 0)
    (hlen : ds.length = 10) (_hnodup : ds.Nodup) :
    (∀ t : UserState, ∀ d : String, t.tier = .lead →
      (incrementQuizCount t d).quizCount = t.quizCount + 1 ∧
      (incrementFlashcardCount t d).flashcardCount = t.flashcardCount + 1) ∧
    (ds.foldl incrementQuizCount s).quizCount = 10 ∧
    useCanStartQuiz (ds.foldl incrementQuizCount s) d11 = false := by
  have hf := lead_foldl_incrementQuizCount ds s hlead
  refine ⟨?_, ?_, ?_⟩
  · intro t d ht
    rw [incrementQuizCount_lead t d ht, incrementFlashcardCount_lead t d ht]
    exact ⟨rfl, rfl⟩
  · rw [hf.2, h0, hlen]
    rfl
  · have hq : (ds.foldl incrementQuizCount s).quizCount = 10 := by
      rw [hf.2, h0, hlen]; rfl
    simp [useCanStartQuiz, hf.1, hq, TIER_LIMITS_lead_totalQuestions]

/-- Ten pairwise distinct dates used by the C2 witness. -/
def c2Dates : List String :=
  ["2024-01-01", "2024-01-02", "2024-01-03", "2024-01-04", "2024-01-05",
   "2024-01-06", "2024-01-07", "2024-01-08", "2024-01-09", "2024-01-10"]

/-- Witness for C2: the fresh initial lead record driven through the ten dates. -/
theorem lead_lifetime_accumulation_witness :
    initialState.tier = .lead ∧ initialState.quizCount = 0 ∧
    c2Dates.length = 10 ∧ c2Dates.Nodup ∧
    (c2Dates.foldl incrementQuizCount initialState).quizCount = 10 ∧
    useCanStartQuiz (c2Dates.foldl incrementQuizCount initialState) "2024-01-11" = false := by
  have h := lead_lifetime_accumulation initialState c2Dates "2024-01-11"
    rfl rfl (by decide) (by decide)
  exact ⟨rfl, rfl, by decide, by decide, h.2.1, h.2.2⟩

/-- Claim C4: for a premium record both gating selectors return true
whatever the counters, date field and supplied current date are. -/
theorem premium_always_permitted (s : UserState) (today : String)
    (h : s.tier = .premium) :
    useCanStartQuiz s today = true ∧ useCanStartFlashcards s today = true := by
  simp [useCanStartQuiz, useCanStartFlashcards, h]

/-- Premium record with large counters and a stale date for the C4 witness. -/
def c4Example : UserState :=
  { isAuthenticated := true
    email := some "pro@example.com"
    userId := some "u9"
    tier := .premium
    quizCount := 1000
    flashcardCount := 1000
    lastResetDate := some "1999-12-31" }

/-- Witness for C4 at a premium record past every finite limit. -/
theorem premium_always_permitted_witness :
    useCanStartQuiz c4Example "2024-06-01" = true ∧
    useCanStartFlashcards c4Example "2024-06-01" = true :=
  premium_always_permitted c4Example "2024-06-01" rfl

/-- Lead record with nonzero counters used to exhibit the C5 failure. -/
def c5LeadExample : UserState :=
  { isAuthenticated := false
    email := some "lead@example.com"
    userId := none
    tier := .lead
    quizCount := 5
    flashcardCount := 2
    lastResetDate := none }

/-- Counterexample to C5: resetDailyLimits has no tier guard, so it zeroes
the counters of a record whose tier is (and stays) lead, strictly
decreasing both counts. -/
theorem lead_counts_reset_counterexample :
    c5LeadExample.tier = .lead ∧
    (resetDailyLimits c5LeadExample "2024-01-02").tier = .lead ∧
    (resetDailyLimits c5LeadExample "2024-01-02").quizCount < c5LeadExample.quizCount ∧
    (resetDailyLimits c5LeadExample "2024-01-02").flashcardCount
      < c5LeadExample.flashcardCount := by
  refine ⟨rfl, rfl, ?_, ?_⟩ <;> decide

/-- Claim C5 as amended: for a lead record the counters are non-decreasing
across captureLeadEmail, upgradeToPremium and both increments, but logout
and resetDailyLimits do zero them while the tier remains (or is set to)
lead, and login and signup zero them while moving the record off lead. -/
theorem lead_counts_monotone_outside_resets
    (s : UserState) (e d : String) (h : s.tier = .lead) :
    s.quizCount ≤ (captureLeadEmail s e).quizCount ∧
    s.flashcardCount ≤ (captureLeadEmail s e).flashcardCount ∧
    s.quizCount ≤ (upgradeToPremium s).quizCount ∧
    s.flashcardCount ≤ (upgradeToPremium s).flashcardCount ∧
    s.quizCount ≤ (incrementQuizCount s d).quizCount ∧
    s.flashcardCount ≤ (incrementQuizCount s d).flashcardCount ∧
    s.quizCount ≤ (incrementFlashcardCount s d).quizCount ∧
    s.flashcardCount ≤ (incrementFlashcardCount s d).flashcardCount ∧
    (resetDailyLimits s d).quizCount = 0 ∧
    (resetDailyLimits s d).flashcardCount = 0 ∧
    (resetDailyLimits s d).tier = s.tier ∧
    (logout s).quizCount = 0 ∧
    (logout s).flashcardCount = 0 ∧
    (logout s).tier = .lead := by
  rw [incrementQuizCount_lead s d h, incrementFlashcardCount_lead s d h]
  refine ⟨le_refl _, le_refl _, le_refl _, le_refl _, ?_, le_refl _, le_refl _, ?_,
    rfl, rfl, rfl, rfl, rfl, rfl⟩ <;> simp

/-- Witness for the amended C5 at the concrete lead record. -/
theorem lead_counts_monotone_outside_resets_witness :
    c5LeadExample.quizCount ≤ (incrementQuizCount c5LeadExample "2024-01-02").quizCount ∧
    (resetDailyLimits c5LeadExample "2024-01-02").quizCount = 0 := by
  have h := lead_counts_monotone_outside_resets c5LeadExample "e@e.com" "2024-01-02" rfl
  exact ⟨h.2.2.2.2.1, h.2.2.2.2.2.2.2.2.1⟩

/-- Counterexample to C6: upgradeToPremium has no guard, so one step from
the initial record reaches a premium record that carries no identity. -/
theorem premium_without_identity_counterexample :
    Reachable (step initialState StoreAction.upgradeToPremium) ∧
    (step initialState StoreAction.upgradeToPremium).tier = .premium ∧
    (step initialState StoreAction.upgradeToPremium).email = none ∧
    (step initialState StoreAction.upgradeToPremium).userId = none :=
  ⟨Reachable.step StoreAction.upgradeToPremium Reachable.init, rfl, rfl, rfl⟩

/-- Helper: both increments and resetDailyLimits leave tier and email alone. -/
theorem increments_preserve_tier_email (s : UserState) (d : String) :
    (incrementQuizCount s d).tier = s.tier ∧
    (incrementQuizCount s d).email = s.email ∧
    (incrementFlashcardCount s d).tier = s.tier ∧
    (incrementFlashcardCount s d).email = s.email ∧
    (resetDailyLimits s d).tier = s.tier ∧
    (resetDailyLimits s d).email = s.email := by
  unfold incrementQuizCount incrementFlashcardCount resetDailyLimits
  refine ⟨?_, ?_, ?_, ?_, rfl, rfl⟩ <;> split <;> rfl

/-- Claim C6 as amended: every reachable record whose tier is free carries
an email; an identity-less record can have tier lead or tier premium (the
latter via an unguarded upgradeToPremium), never free. -/
theorem reachable_free_has_identity (s : UserState) (hr : Reachable s)
    (hfree : s.tier = .free) : ∃ e, s.email = some e := by
  induction hr with
  | init => simp [initialState] at hfree
  | @step t a hr ih =>
    cases a with
    | captureLeadEmail e => simp [step, captureLeadEmail] at hfree
    | login e tok d => exact ⟨e, rfl⟩
    | signup e u tok d => exact ⟨e, rfl⟩
    | logout => simp [step, logout] at hfree
    | upgradeToPremium => simp [step, upgradeToPremium] at hfree
    | incrementQuizCount d =>
      have hp := increments_preserve_tier_email t d
      simp only [step] at hfree ⊢
      rw [hp.2.1]
      exact ih (hp.1 ▸ hfree)
    | incrementFlashcardCount d =>
      have hp := increments_preserve_tier_email t d
      simp only [step] at hfree ⊢
      rw [hp.2.2.2.1]
      exact ih (hp.2.2.1 ▸ hfree)
    | resetDailyLimits d =>
      have hp := increments_preserve_tier_email t d
      simp only [step] at hfree ⊢
      rw [hp.2.2.2.2.2]
      exact ih (hp.2.2.2.2.1 ▸ hfree)

/-- Witness for the amended C6 at a concrete reachable free record. -/
theorem reachable_free_has_identity_witness :
    ∃ e, (step initialState (StoreAction.login "a@b.com" "tok" "2024-01-01")).email
      = some e :=
  reachable_free_has_identity _
    (Reachable.step (StoreAction.login "a@b.com" "tok" "2024-01-01") Reachable.init) rfl

/-- Claim C7: needsSignup holds exactly for a lead with either counter at
the lifetime limit 10; needsSubscription holds exactly for a free record
with a current lastResetDate and either counter at the daily limit 10; the
two selectors are never simultaneously true. -/
theorem needsSignup_needsSubscription_spec (s : UserState) (today : String) :
    (useNeedsSignup s = true ↔
      s.tier = .lead ∧ (10 ≤ s.quizCount ∨ 10 ≤ s.flashcardCount)) ∧
    (useNeedsSubscription s today = true ↔
      s.tier = .free ∧ s.lastResetDate = some today ∧
        (10 ≤ s.quizCount ∨ 10 ≤ s.flashcardCount)) ∧
    ¬(useNeedsSignup s = true ∧ useNeedsSubscription s today = true) := by
  obtain ⟨auth, em, uid, tier, qc, fc, lrd⟩ := s
  by_cases hd : lrd = some today <;> cases tier <;>
    simp [useNeedsSignup, useNeedsSubscription, hd,
      TIER_LIMITS_lead_totalQuestions, TIER_LIMITS_lead_totalFlashcards,
      TIER_LIMITS_free_questionsPerDay, TIER_LIMITS_free_flashcardsPerDay]

/-- Claim C8: the remaining-count selectors return the unlimited sentinel
for premium, max(0, 10 - count) for lead, and for free the full daily
limit 10 when the stored date is stale, otherwise max(0, 10 - count); a
finite result is never negative. -/
theorem remaining_per_tier (s : UserState) (today : String) :
    (s.tier = .premium →
      useRemainingQuizzes s today = .unlimited ∧
      useRemainingFlashcards s today = .unlimited) ∧
    (s.tier = .lead →
      useRemainingQuizzes s today = .fin (max 0 (10 - s.quizCount)) ∧
      useRemainingFlashcards s today = .fin (max 0 (10 - s.flashcardCount))) ∧
    (s.tier = .free → s.lastResetDate ≠ some today →
      useRemainingQuizzes s today = .fin 10 ∧
      useRemainingFlashcards s today = .fin 10) ∧
    (s.tier = .free → s.lastResetDate = some today →
      useRemainingQuizzes s today = .fin (max 0 (10 - s.quizCount)) ∧
      useRemainingFlashcards s today = .fin (max 0 (10 - s.flashcardCount))) ∧
    (∀ n : Int, useRemainingQuizzes s today = .fin n → 0 ≤ n) ∧
    (∀ n : Int, useRemainingFlashcards s today = .fin n → 0 ≤ n) := by
  obtain ⟨auth, em, uid, tier, qc, fc, lrd⟩ := s
  by_cases hd : lrd = some today <;> cases tier <;>
    simp [useRemainingQuizzes, useRemainingFlashcards, hd,
      TIER_LIMITS_lead_totalQuestions, TIER_LIMITS_lead_totalFlashcards,
      TIER_LIMITS_free_questionsPerDay, TIER_LIMITS_free_flashcardsPerDay]

/-- Free record with a stale date used by the C8 witness. -/
def c8Example : UserState :=
  { isAuthenticated := true
    email := some "free@example.com"
    userId := some "u3"
    tier := .free
    quizCount := 7
    flashcardCount := 9
    lastResetDate := some "2024-02-01" }

/-- Witness for C8: a stale free record gets the full daily limit back. -/
theorem remaining_per_tier_witness :
    useRemainingQuizzes c8Example "2024-02-02" = .fin 10 ∧
    useRemainingFlashcards c8Example "2024-02-02" = .fin 10 :=
  (remaining_per_tier c8Example "2024-02-02").2.2.1 rfl (by decide)

/-- Claim C10: for lead and free records, each gating selector is true
exactly when the corresponding remaining-count selector is a strictly
positive finite value; for premium both selectors are true and both
remaining counts are the unlimited sentinel. -/
theorem canStart_iff_remaining_positive (s : UserState) (today : String) :
    ((s.tier = .lead ∨ s.tier = .free) →
      (useCanStartQuiz s today = true ↔
        ∃ n : Int, useRemainingQuizzes s today = .fin n ∧ 0 < n) ∧
      (useCanStartFlashcards s today = true ↔
        ∃ n : Int, useRemainingFlashcards s today = .fin n ∧ 0 < n)) ∧
    (s.tier = .premium →
      useCanStartQuiz s today = true ∧ useCanStartFlashcards s today = true ∧
      useRemainingQuizzes s today = .unlimited ∧
      useRemainingFlashcards s today = .unlimited) := by
  obtain ⟨auth, em, uid, tier, qc, fc, lrd⟩ := s
  by_cases hd : lrd = some today <;> cases tier <;>
    simp [useCanStartQuiz, useCanStartFlashcards, useRemainingQuizzes,
      useRemainingFlashcards, hd,
      TIER_LIMITS_lead_totalQuestions, TIER_LIMITS_lead_totalFlashcards,
      TIER_LIMITS_free_questionsPerDay, TIER_LIMITS_free_flashcardsPerDay]

/-- Witness for C10: the gating and remaining selectors agree on the fresh
initial lead record. -/
theorem canStart_iff_remaining_positive_witness :
    useCanStartQuiz initialState "2024-01-01" = true ↔
      ∃ n : Int, useRemainingQuizzes initialState "2024-01-01" = .fin n ∧ 0 < n :=
  ((canStart_iff_remaining_positive initialState "2024-01-01").1 (Or.inl rfl)).1
